import Mathlib

/-!
Verification of the Sports-Scheduler session/roster engine.

The development shallowly embeds the session lifecycle and roster logic of
the repository:
  * `models/session.js` — the Session entity (`isPast`, `isFull`,
    `getAvailableSlots`, `hasUserJoined`, `addPlayerToSession`,
    `cancelSession`);
  * `routes/player.js` — the join and leave endpoints;
  * the sessions router — create, update and cancel endpoints;
  * `routes/admin.js` — sport creation/rename and the reports aggregation;
  * `migrations/20231201000004-create-user-sessions.js` — the
    `unique_user_session` storage constraint on the join table.

Machine conventions: user/sport/session ids are `Nat`; a wall-clock
instant is a `Nat` counting minutes, a calendar date is its day number
(`instant = day * 1440 + timeOfDay`); strings stay `String`.
-/

/-- Drop whitespace from both ends of a character list. -/
def trimChars (cs : List Char) : List Char :=
  ((cs.dropWhile (fun c => c.isWhitespace)).reverse.dropWhile
    (fun c => c.isWhitespace)).reverse

/-- JavaScript's `String.prototype.trim()`. -/
def jsTrim (s : String) : String :=
  String.mk (trimChars s.data)

/-- JavaScript's `String.prototype.length` (inputs here are ASCII, so the
code-unit count is the character count). -/
def jsLength (s : String) : Nat :=
  s.data.length

/-- Session lifecycle status, from the `ENUM('active','cancelled','completed')`
column of the Session model. -/
inductive Status where
  | active
  | cancelled
  | completed
deriving DecidableEq, Repr

/-- One row of the `Sessions` table, as declared in `Session.init`. -/
structure Session where
  sportId : Nat
  creatorId : Nat
  day : Nat
  timeOfDay : Nat
  venue : String
  playersNeeded : Nat
  status : Status
  cancellationReason : Option String
deriving DecidableEq, Repr

/-- `new Date(date + "T" + time)` — the combined instant of a session. -/
def Session.instant (s : Session) : Nat :=
  s.day * 1440 + s.timeOfDay

/-- `Session#isPast()`: the combined date+time instant is strictly before now. -/
def Session.isPast (s : Session) (now : Nat) : Bool :=
  s.instant < now

/-- `Session#isFull()`: the player count has reached `playersNeeded`.
The JS method counts the roster itself; here the count is passed in. -/
def Session.isFull (s : Session) (playerCount : Nat) : Bool :=
  s.playersNeeded ≤ playerCount

/-- `Session#getAvailableSlots()` = `Math.max(0, playersNeeded - playerCount)`. -/
def Session.getAvailableSlots (s : Session) (playerCount : Nat) : Int :=
  max 0 ((s.playersNeeded : Int) - (playerCount : Int))

/-- `Session#hasUserJoined(userId)`: `players.some(p => p.id === userId)`. -/
def hasUserJoined (roster : List Nat) (uid : Nat) : Bool :=
  roster.contains uid

/-- `Session#cancelSession(reason)`: set status to cancelled and store the reason. -/
def cancelSession (s : Session) (reason : String) : Session :=
  { s with status := .cancelled, cancellationReason := some reason }

/-- Outcome of `POST /player/sessions/:id/join`, one constructor per flash
message of the handler in `routes/player.js`. -/
inductive JoinResult where
  | notFound
  | pastSession
  | cancelledSession
  | ownSession
  | alreadyJoined
  | full
  | success
deriving DecidableEq, Repr

/-- The flash message each join outcome produces in `routes/player.js`. -/
def joinMessage : JoinResult → String
  | .notFound => "Session not found"
  | .pastSession => "Cannot join past sessions"
  | .cancelledSession => "Cannot join cancelled sessions"
  | .ownSession => "You cannot join your own session"
  | .alreadyJoined => "You have already joined this session"
  | .full => "This session is full"
  | .success => "Successfully joined"

/-- The decision sequence of `POST /player/sessions/:id/join`
(`routes/player.js`): not found, past, cancelled, own session, duplicate,
full, then `addPlayer`. -/
def joinRoute (sess : Option Session) (roster : List Nat) (uid : Nat)
    (now : Nat) : JoinResult :=
  match sess with
  | none => .notFound
  | some s =>
    if s.isPast now then .pastSession
    else if s.status = .cancelled then .cancelledSession
    else if s.creatorId = uid then .ownSession
    else if hasUserJoined roster uid then .alreadyJoined
    else if s.isFull roster.length then .full
    else .success

/-- The roster after the join endpoint ran: `addPlayer` appends the user on
success, otherwise the roster is untouched. -/
def joinRouteApply (s : Session) (roster : List Nat) (uid : Nat)
    (now : Nat) : List Nat :=
  if joinRoute (some s) roster uid now = .success then roster ++ [uid]
  else roster

/-- Outcome of `POST /player/sessions/:id/leave` (`routes/player.js`). -/
inductive LeaveResult where
  | notFound
  | notJoined
  | success
deriving DecidableEq, Repr

/-- The decision sequence of `POST /player/sessions/:id/leave`: not found,
not joined, then `removePlayer`. Neither `isPast` nor `status` is consulted. -/
def leaveRoute (sess : Option Session) (roster : List Nat) (uid : Nat) :
    LeaveResult :=
  match sess with
  | none => .notFound
  | some _ =>
    if hasUserJoined roster uid then .success
    else .notJoined

/-- The roster after a successful leave: `removePlayer` deletes the
membership row. -/
def leaveRouteApply (roster : List Nat) (uid : Nat) : List Nat :=
  roster.erase uid

/-- `Session#addPlayerToSession(userId)` from `models/session.js`: checks, in
order, that the user exists, the session is not full, not past, and the user
has not already joined; then `addPlayer`. No creator check, no status check. -/
def addPlayerToSession (users : List Nat) (s : Session) (roster : List Nat)
    (uid : Nat) (now : Nat) : Except String (List Nat) :=
  if ¬ users.contains uid then .error "User not found"
  else if s.isFull roster.length then .error "Session is full"
  else if s.isPast now then .error "Cannot join past sessions"
  else if hasUserJoined roster uid then .error "User already joined this session"
  else .ok (roster ++ [uid])

/-- The spec's `canJoin` predicate, written from §4.2 of the specification:
status is `active`, not past, not the creator, not already in the roster,
not full. Kept for comparison with `joinRoute`. -/
def canJoinSpec (s : Session) (roster : List Nat) (uid : Nat) (now : Nat) :
    Bool :=
  decide (s.status = .active) && !s.isPast now && decide (uid ≠ s.creatorId) &&
    !hasUserJoined roster uid && !s.isFull roster.length

/-!
## Roster store

The `UserSessions` join table of migration
`20231201000004-create-user-sessions.js`. A row is a `(userId, sessionId)`
pair; the migration's `unique_user_session` constraint makes an insert of an
already-present pair fail at write time. It is the only write-time
constraint on the table: there is no capacity constraint.
-/

/-- Insert into `UserSessions` under the `unique_user_session` constraint:
the write fails (`none`, the Conflict outcome) exactly when the pair is
already present. -/
def dbInsertPair (rows : List (Nat × Nat)) (uid sid : Nat) :
    Option (List (Nat × Nat)) :=
  if (uid, sid) ∈ rows then none else some (rows ++ [(uid, sid)])

/-- Delete a membership row (`removePlayer`). -/
def dbRemovePair (rows : List (Nat × Nat)) (uid sid : Nat) :
    List (Nat × Nat) :=
  rows.erase (uid, sid)

/-- The roster of one session, read off the join table. -/
def rosterOf (rows : List (Nat × Nat)) (sid : Nat) : List Nat :=
  (rows.filter (fun r => r.2 = sid)).map (fun r => r.1)

/-- Number of rows equal to a given `(user, session)` pair. -/
def pairCount (rows : List (Nat × Nat)) (p : Nat × Nat) : Nat :=
  (rows.filter (fun r => decide (r = p))).length

/-- A storage-level operation on the join table. -/
inductive RosterOp where
  | add : Nat → Nat → RosterOp
  | remove : Nat → Nat → RosterOp
deriving DecidableEq, Repr

/-- Apply one operation; a conflicting insert leaves the table unchanged. -/
def applyRosterOp (rows : List (Nat × Nat)) : RosterOp → List (Nat × Nat)
  | .add u sid => (dbInsertPair rows u sid).getD rows
  | .remove u sid => dbRemovePair rows u sid

/-- Run a sequence of storage operations. -/
def runRosterOps (rows : List (Nat × Nat)) (ops : List RosterOp) :
    List (Nat × Nat) :=
  ops.foldl applyRosterOp rows

/-!
## Concurrent joins

Two join requests for the same session interleave. Each request runs the
route's pre-checks (`joinRoute`) against the state it observes, and — when
the pre-check passed — performs the `addPlayer` insert, which the storage
layer accepts unless the `(userId, sessionId)` pair already exists.
-/

/-- Progress of one in-flight join request. -/
inductive Phase where
  | pending
  | checked : Bool → Phase
  | done : Bool → Phase
deriving DecidableEq, Repr

/-- Shared state: the join table plus the two requests' phases. -/
structure CState where
  rows : List (Nat × Nat)
  phaseA : Phase
  phaseB : Phase
deriving DecidableEq, Repr

/-- The route's pre-check, evaluated against the current join table. -/
def joinCheck (s : Session) (rows : List (Nat × Nat)) (sid uid now : Nat) :
    Bool :=
  decide (joinRoute (some s) (rosterOf rows sid) uid now = .success)

/-- Effect of one request's write step: the insert succeeds unless the
`unique_user_session` constraint rejects it. -/
def writeStep (rows : List (Nat × Nat)) (uid sid : Nat) :
    List (Nat × Nat) × Bool :=
  match dbInsertPair rows uid sid with
  | some rows2 => (rows2, true)
  | none => (rows, false)

/-- Interleaving semantics of two concurrent joins (users `uA`, `uB`) on
session `sid`: each request first evaluates the pre-check against the state
it sees, then — if the check passed — performs the storage insert. -/
inductive CStep (s : Session) (sid uA uB now : Nat) : CState → CState → Prop
  | checkA (st : CState) : st.phaseA = .pending →
      CStep s sid uA uB now st
        { st with phaseA := .checked (joinCheck s st.rows sid uA now) }
  | checkB (st : CState) : st.phaseB = .pending →
      CStep s sid uA uB now st
        { st with phaseB := .checked (joinCheck s st.rows sid uB now) }
  | writeA (st : CState) : st.phaseA = .checked true →
      CStep s sid uA uB now st
        { st with rows := (writeStep st.rows uA sid).1,
                  phaseA := .done (writeStep st.rows uA sid).2 }
  | writeB (st : CState) : st.phaseB = .checked true →
      CStep s sid uA uB now st
        { st with rows := (writeStep st.rows uB sid).1,
                  phaseB := .done (writeStep st.rows uB sid).2 }
  | failA (st : CState) : st.phaseA = .checked false →
      CStep s sid uA uB now st { st with phaseA := .done false }
  | failB (st : CState) : st.phaseB = .checked false →
      CStep s sid uA uB now st { st with phaseB := .done false }

/-- Reachability under the interleaving semantics. -/
def CReaches (s : Session) (sid uA uB now : Nat) : CState → CState → Prop :=
  Relation.ReflTransGen (CStep s sid uA uB now)

/-!
## Session cancel, create and update endpoints (the sessions router)
-/

/-- Outcome of `POST /sessions/:id/cancel`. The handler checks, in order:
session found, caller is creator or admin, reason (trimmed) between 10 and
500 characters; then calls `cancelSession`. It checks neither `isPast()`
nor an already-`cancelled` status (only the GET form page does). -/
inductive CancelResult where
  | notFound
  | forbidden
  | reasonLength
  | ok : Session → CancelResult
deriving DecidableEq, Repr

/-- `POST /sessions/:id/cancel`, translated check for check. -/
def cancelPost (sess : Option Session) (callerId : Nat) (callerAdmin : Bool)
    (reason : String) : CancelResult :=
  match sess with
  | none => .notFound
  | some s =>
    if s.creatorId ≠ callerId ∧ ¬ callerAdmin then .forbidden
    else if ¬ (10 ≤ jsLength (jsTrim reason) ∧ jsLength (jsTrim reason) ≤ 500) then
      .reasonLength
    else .ok (cancelSession s (jsTrim reason))

/-- Outcome of `POST /sessions` (create). One constructor per validator of
the route, in declaration order, plus the sport-existence check. -/
inductive CreateResult where
  | invalidSport
  | dateInPast
  | venueLength
  | playersRange
  | sportNotFound
  | ok : Session → CreateResult
deriving DecidableEq, Repr

/-- The message attached to each create failure in the route's validators. -/
def createMessage : CreateResult → String
  | .invalidSport => "Please select a valid sport"
  | .dateInPast => "Session date must be in the future"
  | .venueLength => "Venue must be between 2 and 200 characters"
  | .playersRange => "Players needed must be between 1 and 50"
  | .sportNotFound => "Selected sport not found"
  | .ok _ => "session created successfully!"

/-- `POST /sessions`: validators in declaration order — `sportId ≥ 1`; the
custom date check `new Date(date) < today.setHours(0,0,0,0)` (a calendar-day
comparison: the session's day is before the current day); trimmed venue
length in [2,200]; `playersNeeded` in [1,50] — then the sport lookup, then
`Session.create` with default status `active`. `now` is the wall-clock
instant at the moment of creation; `now / 1440` is today's day number.
The purely syntactic ISO-date and `HH:MM` regex validators are input-format
checks of the web layer; inputs arrive here already parsed (day and minute
numbers). -/
def createPost (sports : List Nat) (callerId sportId day timeOfDay : Nat)
    (venue : String) (playersNeeded : Nat) (now : Nat) : CreateResult :=
  if sportId < 1 then .invalidSport
  else if day < now / 1440 then .dateInPast
  else if ¬ (2 ≤ jsLength (jsTrim venue) ∧ jsLength (jsTrim venue) ≤ 200) then .venueLength
  else if ¬ (1 ≤ playersNeeded ∧ playersNeeded ≤ 50) then .playersRange
  else if ¬ sports.contains sportId then .sportNotFound
  else .ok { sportId := sportId, creatorId := callerId, day := day,
             timeOfDay := timeOfDay, venue := jsTrim venue,
             playersNeeded := playersNeeded, status := .active,
             cancellationReason := none }

/-- Outcome of `PUT /sessions/:id` (update). -/
inductive UpdateResult where
  | notFound
  | forbidden
  | pastSession
  | fieldInvalid
  | belowRoster : Nat → UpdateResult
  | ok : Session → UpdateResult
deriving DecidableEq, Repr

/-- The update route's field validators (same constraints as create). -/
def updateFieldsOk (sportId day : Nat) (venue : String)
    (playersNeeded : Nat) (now : Nat) : Bool :=
  decide (1 ≤ sportId) && decide (now / 1440 ≤ day) &&
    decide (2 ≤ jsLength (jsTrim venue) ∧ jsLength (jsTrim venue) ≤ 200) &&
    decide (1 ≤ playersNeeded ∧ playersNeeded ≤ 50)

/-- `PUT /sessions/:id`, translated check for check: session found, caller
is creator or admin, session not past, field validators, then the guard
`playersNeeded < session.players.length` ("Cannot reduce players needed
below current joined count"), then `session.update` replaces the fields. -/
def updatePut (sess : Option Session) (rosterCount : Nat) (callerId : Nat)
    (callerAdmin : Bool) (sportId day timeOfDay : Nat) (venue : String)
    (playersNeeded : Nat) (now : Nat) : UpdateResult :=
  match sess with
  | none => .notFound
  | some s =>
    if s.creatorId ≠ callerId ∧ ¬ callerAdmin then .forbidden
    else if s.isPast now then .pastSession
    else if ¬ updateFieldsOk sportId day venue playersNeeded now then
      .fieldInvalid
    else if playersNeeded < rosterCount then .belowRoster rosterCount
    else .ok { s with
      sportId := sportId, day := day, timeOfDay := timeOfDay,
      venue := jsTrim venue, playersNeeded := playersNeeded }

/-!
## Sport catalog (`routes/admin.js`)
-/

/-- One row of the `Sports` table. -/
structure Sport where
  id : Nat
  name : String
  adminId : Nat
deriving DecidableEq, Repr

/-- Outcome of the sport create/rename endpoints. -/
inductive SportResult where
  | nameLength
  | conflict
  | notFound
  | ok : List Sport → SportResult
deriving DecidableEq, Repr

/-- `POST /admin/sports`: trimmed name length in [2,50]; the custom
validator rejects a sport the same admin already owns under the exact
trimmed name; then `Sport.create`. -/
def createSportPost (sports : List Sport) (adminId : Nat) (nm : String)
    (newId : Nat) : SportResult :=
  if ¬ (2 ≤ jsLength (jsTrim nm) ∧ jsLength (jsTrim nm) ≤ 50) then .nameLength
  else if sports.any (fun sp => decide (sp.name = jsTrim nm ∧ sp.adminId = adminId)) then
    .conflict
  else .ok (sports ++ [{ id := newId, name := jsTrim nm, adminId := adminId }])

/-- `PUT /admin/sports/:id`: trimmed name length in [2,50]; then
`Sport.findOne({id, adminId})` — not found unless the caller owns it — then
`sport.update({name})`. The route has no duplicate-name validator. -/
def renameSportPut (sports : List Sport) (adminId sportId : Nat)
    (nm : String) : SportResult :=
  if ¬ (2 ≤ jsLength (jsTrim nm) ∧ jsLength (jsTrim nm) ≤ 50) then .nameLength
  else if sports.any (fun sp => decide (sp.id = sportId ∧ sp.adminId = adminId)) then
    .ok (sports.map (fun sp =>
      if sp.id = sportId ∧ sp.adminId = adminId then { sp with name := jsTrim nm }
      else sp))
  else .notFound

/-!
## Reports aggregation (`GET /admin/reports` in `routes/admin.js`)
-/

/-- A session row as the reports query returns it: its date, its sport's
name, and its roster. -/
structure RepSession where
  day : Nat
  sportName : String
  players : List Nat
deriving DecidableEq, Repr

/-- One entry of the `sportStats` object. -/
structure SportStat where
  name : String
  sessionCount : Nat
  totalPlayers : Nat
deriving DecidableEq, Repr

/-- One iteration of the `sessions.forEach` loop: bump the stats entry for
`nm` (`sessionCount++`, `totalPlayers += session.players.length`), creating
it at the end if absent — JS objects keep string keys in insertion order. -/
def bumpStat (stats : List SportStat) (nm : String) (playerCount : Nat) :
    List SportStat :=
  match stats with
  | [] => [{ name := nm, sessionCount := 1, totalPlayers := playerCount }]
  | st :: rest =>
    if st.name = nm then
      { st with sessionCount := st.sessionCount + 1,
                totalPlayers := st.totalPlayers + playerCount } :: rest
    else st :: bumpStat rest nm playerCount

/-- The `sportStats` accumulation over the fetched sessions, in order. -/
def sportStatsOf (sessions : List RepSession) : List SportStat :=
  sessions.foldl (fun acc s => bumpStat acc s.sportName s.players.length) []

/-- Stable insertion of a stat into a list sorted by `sessionCount`
descending: the element goes before the first entry whose count does not
exceed it, so earlier elements win ties. -/
def insertByCountDesc (x : SportStat) : List SportStat → List SportStat
  | [] => [x]
  | y :: ys =>
    if y.sessionCount ≤ x.sessionCount then x :: y :: ys
    else y :: insertByCountDesc x ys

/-- `Object.values(sportStats).sort((a, b) => b.sessionCount - a.sessionCount)`
— a stable sort by session count, descending. -/
def sortByCountDesc : List SportStat → List SportStat
  | [] => []
  | x :: xs => insertByCountDesc x (sortByCountDesc xs)

/-- `GET /admin/reports`: keep the sessions whose date falls in
[startDay, endDay], aggregate `sportStats`, and sort by session count
descending. -/
def sportPopularity (sessions : List RepSession) (startDay endDay : Nat) :
    List SportStat :=
  sortByCountDesc (sportStatsOf
    (sessions.filter (fun s => decide (startDay ≤ s.day ∧ s.day ≤ endDay))))

/-- The stats entry recorded for a sport name, if any. -/
def statFor (stats : List SportStat) (nm : String) : Option SportStat :=
  stats.find? (fun st => st.name = nm)

/-- Modelled from the spec (§4.5 `sportPopularity`): the number of distinct
players over a sport's sessions in range — "each player counted once per
sport even if they joined several of its sessions". Kept for comparison
with the aggregation the code performs. -/
def distinctPlayersSpec (sessions : List RepSession) (startDay endDay : Nat)
    (nm : String) : Nat :=
  (((sessions.filter (fun s => decide (startDay ≤ s.day ∧ s.day ≤ endDay ∧
      s.sportName = nm))).flatMap (fun s => s.players)).dedup).length

/-!
## Concrete instances used in the theorems below
-/

/-- A future active session, creator user 0, a single slot. -/
def lastSlotSession : Session :=
  { sportId := 1, creatorId := 0, day := 10, timeOfDay := 0, venue := "Park",
    playersNeeded := 1, status := .active, cancellationReason := none }

/-- A future session in the (normally unreachable) `completed` status. -/
def completedFutureSession : Session :=
  { lastSlotSession with playersNeeded := 5, status := .completed }

/-- A future, non-full, already-cancelled session created by user 7. -/
def cancelledFutureSession : Session :=
  { sportId := 1, creatorId := 7, day := 10, timeOfDay := 0, venue := "Park",
    playersNeeded := 5, status := .cancelled,
    cancellationReason := some "rainy weather today" }

/-- An active session whose instant (day 0, 00:00) is past for any `now ≥ 1`. -/
def pastActiveSession : Session :=
  { sportId := 1, creatorId := 7, day := 0, timeOfDay := 0, venue := "Park",
    playersNeeded := 5, status := .active, cancellationReason := none }

/-- The initial state of the two-request race: empty roster, both pending. -/
def raceInit : CState :=
  { rows := [], phaseA := .pending, phaseB := .pending }

/-- The final state of the race: both joins committed. -/
def raceFinal : CState :=
  { rows := [(1, 5), (2, 5)], phaseA := .done true, phaseB := .done true }

/-- Two sessions of sport "A" on days 5 and 6, both joined by player 7 only. -/
def repCexSessions : List RepSession :=
  [{ day := 5, sportName := "A", players := [7] },
   { day := 6, sportName := "A", players := [7] }]

/-- Admin 1 owns two sports, "Cricket" and "Tennis". -/
def twoSports : List Sport :=
  [{ id := 1, name := "Cricket", adminId := 1 },
   { id := 2, name := "Tennis", adminId := 1 }]

/-- The session a same-day create request produces: day 100 at 09:00. -/
def sameDayLateSession : Session :=
  { sportId := 3, creatorId := 7, day := 100, timeOfDay := 540,
    venue := "Park", playersNeeded := 5, status := .active,
    cancellationReason := none }

/-- Number of sessions of a given sport name in a list. -/
def sessionCountFor (l : List RepSession) (nm : String) : Nat :=
  (l.filter (fun s => decide (s.sportName = nm))).length

/-- Sum of the roster sizes of a given sport's sessions in a list. -/
def playerSumFor (l : List RepSession) (nm : String) : Nat :=
  ((l.filter (fun s => decide (s.sportName = nm))).map
    (fun s => s.players.length)).sum

/-- The sessions of the report's date range. -/
def inRange (sessions : List RepSession) (startDay endDay : Nat) :
    List RepSession :=
  sessions.filter (fun s => decide (startDay ≤ s.day ∧ s.day ≤ endDay))

/-- The stats entry a sport name should end up with: absent when the sport
has no session in the list, otherwise its session count and the sum of its
sessions' roster sizes. -/
def statValue (l : List RepSession) (nm : String) : Option SportStat :=
  if sessionCountFor l nm = 0 then none
  else some { name := nm, sessionCount := sessionCountFor l nm,
              totalPlayers := playerSumFor l nm }

/-- Pointwise combination of two optional stats entries (used to state the
fold invariant of the aggregation). -/
def mergeOpt : Option SportStat → Option SportStat → Option SportStat
  | none, o => o
  | some st, none => some st
  | some st, some v =>
    some { name := st.name, sessionCount := st.sessionCount + v.sessionCount,
           totalPlayers := st.totalPlayers + v.totalPlayers }

/-- C10: `Session.addPlayerToSession(userId)` succeeds, appending the user,
exactly when the user exists, the session is not full, not past, and the
user has not already joined; no creator check and no status check is made,
so the creator of a future, non-full, cancelled session is added to its own
roster through this interface. -/
theorem addPlayerToSession_success_iff :
    (∀ (users : List Nat) (s : Session) (roster : List Nat) (uid now : Nat),
      (addPlayerToSession users s roster uid now = .ok (roster ++ [uid]) ↔
        (users.contains uid = true ∧ s.isFull roster.length = false ∧
         s.isPast now = false ∧ hasUserJoined roster uid = false)) ∧
      (∀ r, addPlayerToSession users s roster uid now = .ok r →
        r = roster ++ [uid])) ∧
    addPlayerToSession [7] cancelledFutureSession [] 7 0 = .ok [7] := by
  constructor
  · intro users s roster uid now
    constructor
    · simp only [addPlayerToSession]
      split_ifs <;> simp_all
    · intro r
      simp only [addPlayerToSession]
      split_ifs <;> simp_all
  · rfl

/-- C4: the leave endpoint ignores past-ness and status: for a session on
the roster it succeeds and `removePlayer` removes the user; it fails
exactly when the user is not on the roster. -/
theorem leave_ignores_pastness :
    ∀ (s : Session) (roster : List Nat) (uid now : Nat),
      (leaveRoute (some s) roster uid = .success ↔ uid ∈ roster) ∧
      (s.isPast now = true → uid ∈ roster →
        leaveRoute (some s) roster uid = .success ∧
        (roster.Nodup → uid ∉ leaveRouteApply roster uid)) := by
  intro s roster uid now
  have base : leaveRoute (some s) roster uid = .success ↔ uid ∈ roster := by
    simp only [leaveRoute, hasUserJoined]
    split_ifs with h <;> simp_all
  refine ⟨base, fun _ hmem => ⟨base.mpr hmem, fun hnd => ?_⟩⟩
  simpa [leaveRouteApply] using hnd.not_mem_erase

/-- C4 witness: user 3 leaves a past session it had joined. -/
theorem leave_ignores_pastness_w :
    leaveRoute (some pastActiveSession) [3] 3 = .success :=
  ((leave_ignores_pastness pastActiveSession [3] 3 1440).2 (by decide)
    (by decide)).1

/-- C3 (code divergence): `POST /sessions/:id/cancel` checks neither
`isPast()` nor an already-`cancelled` status — the creator re-cancels an
already-cancelled future session, overwriting its stored reason, and
cancels a past session, both with success. -/
theorem cancelPost_skips_state_checks :
    (cancelPost (some cancelledFutureSession) 7 false "abcdefghijkl" =
      .ok { cancelledFutureSession with
        cancellationReason := some "abcdefghijkl" }) ∧
    cancelledFutureSession.status = .cancelled ∧
    (cancelPost (some pastActiveSession) 7 false "abcdefghijkl" =
      .ok (cancelSession pastActiveSession "abcdefghijkl")) ∧
    pastActiveSession.isPast 1440 = true := by
  decide

/-- C10 witness: the success case of the iff applied to the creator of a
cancelled future session. -/
theorem addPlayerToSession_success_iff_w :
    addPlayerToSession [7] cancelledFutureSession [] 7 0 = .ok ([] ++ [7]) :=
  ((addPlayerToSession_success_iff.1 [7] cancelledFutureSession [] 7 0).1).mpr
    (by decide)

/-- C2 counterexample: a future, non-full session in status `completed` is
accepted by the join endpoint (it only blocks `cancelled`), while the
spec's `canJoin` (which requires status `active`) rejects it. -/
theorem join_completed_status_cex :
    joinRoute (some completedFutureSession) [] 1 0 = .success ∧
    canJoinSpec completedFutureSession [] 1 0 = false ∧
    completedFutureSession.status = .completed := by
  decide

/-- C2 amended: the join endpoint succeeds iff the session is not
`cancelled` (rather than: is `active`), not past, the caller is neither
the creator nor already on the roster, and the session is not full; the
missing-session case yields its own outcome and the six failure outcomes
carry six pairwise-distinct user-facing messages. -/
theorem join_success_iff_amended :
    ∀ (s : Session) (roster : List Nat) (uid now : Nat),
      (joinRoute (some s) roster uid now = .success ↔
        (s.status ≠ .cancelled ∧ s.isPast now = false ∧ uid ≠ s.creatorId ∧
         hasUserJoined roster uid = false ∧ s.isFull roster.length = false)) ∧
      joinRoute none roster uid now = .notFound ∧
      ([JoinResult.notFound, .pastSession, .cancelledSession, .ownSession,
        .alreadyJoined, .full].map joinMessage).Nodup := by
  intro s roster uid now
  refine ⟨?_, rfl, by decide⟩
  simp only [joinRoute]
  split_ifs with h1 h2 h3 h4 h5 <;> simp_all <;> omega

/-- C2 witness: the success direction at a concrete eligible join. -/
theorem join_success_iff_amended_w :
    joinRoute (some lastSlotSession) [] 3 0 = .success :=
  ((join_success_iff_amended lastSlotSession [] 3 0).1).mpr (by decide)

/-- C5 counterexample: at 18:00 of day 100 a session dated day 100, 09:00 —
whose date/time instant is already past — is created successfully: the
route's custom validator only compares calendar days. -/
theorem create_sameday_past_cex :
    createPost [3] 7 3 100 540 "Park" 5 145080 = .ok sameDayLateSession ∧
    sameDayLateSession.isPast 145080 = true := by
  constructor
  · rfl
  · decide

/-- C5 amended: creation succeeds iff the sport id is positive, the
session's calendar day is not before the current day, the trimmed venue
length is in [2,200], `playersNeeded` is in [1,50], and the sport exists;
a request whose day precedes the current day fails with the "Session date
must be in the future" validation message; a created session starts
`active`. -/
theorem create_validation_amended :
    ∀ (sports : List Nat) (callerId sportId day tod : Nat) (venue : String)
      (pn now : Nat),
      ((∃ s, createPost sports callerId sportId day tod venue pn now = .ok s) ↔
        (1 ≤ sportId ∧ now / 1440 ≤ day ∧ 2 ≤ jsLength (jsTrim venue) ∧
         jsLength (jsTrim venue) ≤ 200 ∧ 1 ≤ pn ∧ pn ≤ 50 ∧
         sports.contains sportId = true)) ∧
      (1 ≤ sportId → day < now / 1440 →
        createPost sports callerId sportId day tod venue pn now = .dateInPast) ∧
      createMessage .dateInPast = "Session date must be in the future" ∧
      (∀ s, createPost sports callerId sportId day tod venue pn now = .ok s →
        s.status = .active) := by
  intro sports callerId sportId day tod venue pn now
  refine ⟨?_, ?_, rfl, ?_⟩
  · simp only [createPost]
    split_ifs <;> simp_all <;> omega
  · intro h1 h2
    simp only [createPost]
    split_ifs <;> simp_all <;> omega
  · intro s
    simp only [createPost]
    split_ifs <;> simp_all
    intro h
    rw [← h]

/-- C5 witness: a valid create on day 100 for day 101 succeeds, and one
dated day 99 fails with the date message. -/
theorem create_validation_amended_w :
    (∃ s, createPost [3] 7 3 101 540 "Park" 5 145080 = .ok s) ∧
    createPost [3] 7 3 99 540 "Park" 5 145080 = .dateInPast :=
  ⟨(create_validation_amended [3] 7 3 101 540 "Park" 5 145080).1.mpr
      (by decide),
   (create_validation_amended [3] 7 3 99 540 "Park" 5 145080).2.1
      (by decide) (by decide)⟩

/-- C6: the update endpoint never reduces `playersNeeded` below the current
roster size — a successful update's new capacity is at least the roster
count — and when the caller is the creator or an admin, the session is not
past and the field validators pass, a request with `playersNeeded` below
the roster count fails with the dedicated "cannot reduce" outcome carrying
that count. -/
theorem update_never_below_roster :
    ∀ (s : Session) (cnt callerId : Nat) (adm : Bool)
      (sportId day tod : Nat) (venue : String) (pn now : Nat),
      (∀ s2, updatePut (some s) cnt callerId adm sportId day tod venue pn now
          = .ok s2 → cnt ≤ s2.playersNeeded ∧ cnt ≤ pn) ∧
      ((s.creatorId = callerId ∨ adm = true) → s.isPast now = false →
        updateFieldsOk sportId day venue pn now = true → pn < cnt →
        updatePut (some s) cnt callerId adm sportId day tod venue pn now
          = .belowRoster cnt) := by
  intro s cnt callerId adm sportId day tod venue pn now
  constructor
  · intro s2
    simp only [updatePut]
    split_ifs with h1 h2 h3 h4
    all_goals intro h
    all_goals try (simp at h; done)
    all_goals injection h with hh
    all_goals subst hh
    all_goals exact ⟨Nat.le_of_not_lt (by assumption), Nat.le_of_not_lt (by assumption)⟩
  · intro hown hpast hfields hlt
    simp only [updatePut, hpast, hfields, hlt]
    simp only [Bool.false_eq_true, if_false, not_true, if_true]
    simp [hlt]
    intro h
    rcases hown with h2 | h2
    · exact absurd h2 h
    · exact h2

/-- C6 witness: with 2 players joined, reducing `playersNeeded` to 1 on an
otherwise valid request fails with the "cannot reduce" outcome. -/
theorem update_never_below_roster_w :
    updatePut (some lastSlotSession) 2 0 false 1 11 0 "Park" 1 0
      = .belowRoster 2 :=
  (update_never_below_roster lastSlotSession 2 0 false 1 11 0 "Park" 1 0).2
    (Or.inl rfl) (by decide) (by decide) (by decide)

/-- C9 counterexample: admin 1 owns "Cricket" and "Tennis"; renaming
"Tennis" to "Cricket" succeeds even though the admin already owns a sport
with that exact trimmed name, leaving two sports named "Cricket" — the
rename route has no uniqueness validator. -/
theorem rename_no_conflict_check_cex :
    renameSportPut twoSports 1 2 "Cricket" =
      .ok [{ id := 1, name := "Cricket", adminId := 1 },
           { id := 2, name := "Cricket", adminId := 1 }] ∧
    twoSports.any
      (fun sp => decide (sp.name = jsTrim "Cricket" ∧ sp.adminId = 1)) = true := by
  constructor
  · rfl
  · decide

/-- C9 amended: rename succeeds exactly when the trimmed new name has
length in [2,50] and the caller is the owning admin of the sport — no
duplicate-name check is made on rename; at creation, a sport whose exact
trimmed name the admin already owns is rejected with the Conflict
outcome. -/
theorem rename_amended :
    ∀ (sports : List Sport) (adminId sportId : Nat) (nm : String),
      ((∃ l, renameSportPut sports adminId sportId nm = .ok l) ↔
        (2 ≤ jsLength (jsTrim nm) ∧ jsLength (jsTrim nm) ≤ 50 ∧
         sports.any
           (fun sp => decide (sp.id = sportId ∧ sp.adminId = adminId)) = true)) ∧
      (∀ newId, 2 ≤ jsLength (jsTrim nm) → jsLength (jsTrim nm) ≤ 50 →
        sports.any
          (fun sp => decide (sp.name = jsTrim nm ∧ sp.adminId = adminId)) = true →
        createSportPost sports adminId nm newId = .conflict) := by
  intro sports adminId sportId nm
  constructor
  · simp only [renameSportPut]
    split_ifs <;> simp_all
  · intro newId hlo hhi hdup
    simp only [createSportPost]
    split_ifs with h1 h2
    all_goals first
      | rfl
      | exact absurd hdup (by assumption)
      | exact absurd (And.intro hlo hhi) (by assumption)

/-- C9 witness: renaming sport 2 owned by admin 1 to "Football" succeeds;
creating a second "Cricket" for admin 1 conflicts. -/
theorem rename_amended_w :
    (∃ l, renameSportPut twoSports 1 2 "Football" = .ok l) ∧
    createSportPost twoSports 1 "Cricket" 9 = .conflict :=
  ⟨(rename_amended twoSports 1 2 "Football").1.mpr (by decide),
   (rename_amended twoSports 1 2 "Cricket").2 9 (by decide) (by decide)
     (by decide)⟩

/-- A successful join implies the full-check was false. -/
theorem joinRoute_success_not_full (s : Session) (roster : List Nat)
    (uid now : Nat) :
    joinRoute (some s) roster uid now = .success →
    s.isFull roster.length = false := by
  simp only [joinRoute]
  split_ifs <;> simp_all

/-- C1 counterexample: both users pass the pre-check against the
one-slot-left state, then both `addPlayer` inserts are accepted — the
`unique_user_session` constraint only rejects duplicate pairs — reaching a
state where the roster of session 5 holds 2 users against
`playersNeeded = 1`, with both requests reporting success. -/
theorem concurrent_join_overflow_cex :
    CReaches lastSlotSession 5 1 2 0 raceInit raceFinal ∧
    (rosterOf raceFinal.rows 5).length = lastSlotSession.playersNeeded + 1 ∧
    raceFinal.phaseA = .done true ∧ raceFinal.phaseB = .done true := by
  refine ⟨?_, by decide, rfl, rfl⟩
  have s1 : CStep lastSlotSession 5 1 2 0 raceInit
      { rows := [], phaseA := .checked true, phaseB := .pending } :=
    CStep.checkA raceInit rfl
  have s2 : CStep lastSlotSession 5 1 2 0
      { rows := [], phaseA := .checked true, phaseB := .pending }
      { rows := [], phaseA := .checked true, phaseB := .checked true } :=
    CStep.checkB _ rfl
  have s3 : CStep lastSlotSession 5 1 2 0
      { rows := [], phaseA := .checked true, phaseB := .checked true }
      { rows := [(1, 5)], phaseA := .done true, phaseB := .checked true } :=
    CStep.writeA _ rfl
  have s4 : CStep lastSlotSession 5 1 2 0
      { rows := [(1, 5)], phaseA := .done true, phaseB := .checked true }
      raceFinal :=
    CStep.writeB _ rfl
  exact .head s1 (.head s2 (.head s3 (.head s4 .refl)))

/-- C1 amended: when the pre-check and the insert run atomically (no
interleaving), each join preserves `rosterSize ≤ playersNeeded`: the
endpoint appends only when the full-check fails. -/
theorem join_capacity_preserved :
    ∀ (s : Session) (roster : List Nat) (uid now : Nat),
      roster.length ≤ s.playersNeeded →
      (joinRouteApply s roster uid now).length ≤ s.playersNeeded := by
  intro s roster uid now h
  simp only [joinRouteApply]
  split_ifs with hj
  · have hf := joinRoute_success_not_full s roster uid now hj
    simp only [Session.isFull, decide_eq_false_iff_not, not_le] at hf
    simpa using hf
  · exact h

/-- C1 witness: a join on an empty one-slot roster stays within capacity. -/
theorem join_capacity_preserved_w :
    (joinRouteApply lastSlotSession [] 3 0).length ≤
      lastSlotSession.playersNeeded :=
  join_capacity_preserved lastSlotSession [] 3 0 (by decide)

/-- A write through the unique constraint preserves row distinctness. -/
theorem writeStep_nodup (rows : List (Nat × Nat)) (uid sid : Nat)
    (h : rows.Nodup) : (writeStep rows uid sid).1.Nodup := by
  simp only [writeStep, dbInsertPair]
  split_ifs with hmem
  · exact h
  · exact (List.nodup_append).mpr
      ⟨h, List.nodup_singleton _,
       by simpa [List.disjoint_singleton] using hmem⟩

/-- Any storage operation preserves row distinctness. -/
theorem applyRosterOp_nodup (rows : List (Nat × Nat)) (op : RosterOp)
    (h : rows.Nodup) : (applyRosterOp rows op).Nodup := by
  cases op with
  | add u sid =>
    simp only [applyRosterOp, dbInsertPair]
    split_ifs with hmem
    · simpa using h
    · exact (List.nodup_append).mpr
        ⟨h, List.nodup_singleton _,
         by simpa [List.disjoint_singleton] using hmem⟩
  | remove u sid =>
    exact h.erase _

/-- C7: starting from a duplicate-free join table, any sequence of
storage-level adds and removes keeps it duplicate-free — each `(user,
session)` pair occurs at most once — an insert of an existing pair is
rejected with the Conflict outcome by the `unique_user_session`
constraint itself, and every interleaved step of two concurrent join
requests preserves distinctness as well. -/
theorem roster_pair_unique :
    ∀ (rows : List (Nat × Nat)) (ops : List RosterOp) (uid sid : Nat)
      (s : Session) (sid2 uA uB now : Nat) (st st2 : CState),
      (rows.Nodup → (runRosterOps rows ops).Nodup ∧
        pairCount (runRosterOps rows ops) (uid, sid) ≤ 1) ∧
      ((uid, sid) ∈ rows → dbInsertPair rows uid sid = none) ∧
      (CStep s sid2 uA uB now st st2 → st.rows.Nodup → st2.rows.Nodup) := by
  intro rows ops uid sid s sid2 uA uB now st st2
  refine ⟨fun hnd => ?_, fun hmem => by simp [dbInsertPair, hmem], ?_⟩
  · have run : (runRosterOps rows ops).Nodup := by
      induction ops generalizing rows with
      | nil => exact hnd
      | cons op rest ih =>
        exact ih (applyRosterOp rows op) (applyRosterOp_nodup rows op hnd)
    refine ⟨run, ?_⟩
    have hf := run.filter (fun r => decide (r = (uid, sid)))
    have hall : ∀ x ∈ (runRosterOps rows ops).filter
        (fun r => decide (r = (uid, sid))), x = (uid, sid) := by
      intro x hx
      simpa using (List.mem_filter.mp hx).2
    rcases hfl : (runRosterOps rows ops).filter
        (fun r => decide (r = (uid, sid))) with _ | ⟨a, _ | ⟨b, t⟩⟩
    · simp [pairCount, hfl]
    · simp [pairCount, hfl]
    · exfalso
      rw [hfl] at hf hall
      have ha := hall a (by simp)
      have hb := hall b (by simp)
      have hab : a = b := by rw [ha, hb]
      have := (List.nodup_cons.mp hf).1
      exact this (by simp [hab])
  · intro hstep hnd
    cases hstep with
    | checkA _ => exact hnd
    | checkB _ => exact hnd
    | writeA _ => exact writeStep_nodup _ _ _ hnd
    | writeB _ => exact writeStep_nodup _ _ _ hnd
    | failA _ => exact hnd
    | failB _ => exact hnd

/-- C7 witness: with `(1,5)` present, adding `(2,5)` keeps rows unique and
re-adding `(1,5)` is rejected by the constraint. -/
theorem roster_pair_unique_w :
    ((runRosterOps [(1, 5)] [RosterOp.add 2 5]).Nodup ∧
      pairCount (runRosterOps [(1, 5)] [RosterOp.add 2 5]) (1, 5) ≤ 1) ∧
    dbInsertPair [(1, 5)] 1 5 = none :=
  ⟨(roster_pair_unique [(1, 5)] [RosterOp.add 2 5] 1 5 lastSlotSession 5 1 2 0
      raceInit raceInit).1 (by decide),
   (roster_pair_unique [(1, 5)] [RosterOp.add 2 5] 1 5 lastSlotSession 5 1 2 0
      raceInit raceInit).2.1 (by decide)⟩

/-- Session count over a cons. -/
theorem sessionCountFor_cons (x : RepSession) (xs : List RepSession)
    (nm : String) :
    sessionCountFor (x :: xs) nm =
      (if x.sportName = nm then 1 else 0) + sessionCountFor xs nm := by
  simp only [sessionCountFor, List.filter_cons]
  split_ifs with h <;> simp_all <;> omega

/-- Player sum over a cons. -/
theorem playerSumFor_cons (x : RepSession) (xs : List RepSession)
    (nm : String) :
    playerSumFor (x :: xs) nm =
      (if x.sportName = nm then x.players.length else 0) +
        playerSumFor xs nm := by
  simp only [playerSumFor, List.filter_cons]
  split_ifs with h <;> simp_all

/-- A sport with no session in the list contributes no players. -/
theorem playerSumFor_of_count_zero (l : List RepSession) (nm : String)
    (h : sessionCountFor l nm = 0) : playerSumFor l nm = 0 := by
  simp only [sessionCountFor] at h
  rw [List.length_eq_zero] at h
  simp [playerSumFor, h]

/-- A found stats entry carries the looked-up name. -/
theorem statFor_name (stats : List SportStat) (nm : String) (st : SportStat)
    (h : statFor stats nm = some st) : st.name = nm := by
  simp only [statFor] at h
  have := List.find?_some h
  simpa using this

/-- Lookup over a cons. -/
theorem statFor_cons (st : SportStat) (rest : List SportStat) (nm : String) :
    statFor (st :: rest) nm =
      if st.name = nm then some st else statFor rest nm := by
  by_cases h : st.name = nm <;> simp [statFor, List.find?, h]

/-- Effect of one `bumpStat` on a lookup. -/
theorem statFor_bumpStat (stats : List SportStat) (nm nm2 : String)
    (pc : Nat) :
    statFor (bumpStat stats nm pc) nm2 =
      if nm = nm2 then
        (match statFor stats nm with
         | some st =>
           some { name := st.name, sessionCount := st.sessionCount + 1,
                  totalPlayers := st.totalPlayers + pc }
         | none => some { name := nm, sessionCount := 1, totalPlayers := pc })
      else statFor stats nm2 := by
  induction stats with
  | nil =>
    by_cases h : nm = nm2 <;> simp [bumpStat, statFor, List.find?, h]
  | cons st rest ih =>
    simp only [bumpStat]
    by_cases hst : st.name = nm
    · rw [if_pos hst]
      by_cases heq : nm = nm2
      · rw [statFor_cons, if_pos (hst.trans heq), if_pos heq, statFor_cons,
          if_pos hst]
      · rw [statFor_cons, if_neg (by rw [hst]; exact heq), if_neg heq,
          statFor_cons, if_neg (by rw [hst]; exact heq)]
    · rw [if_neg hst, statFor_cons]
      by_cases hst2 : st.name = nm2
      · rw [if_pos hst2]
        by_cases heq : nm = nm2
        · exact absurd (by rw [heq]; exact hst2) hst
        · rw [if_neg heq, statFor_cons, if_pos hst2]
      · rw [if_neg hst2, ih]
        by_cases heq : nm = nm2
        · rw [if_pos heq, if_pos heq, statFor_cons, if_neg hst]
        · rw [if_neg heq, if_neg heq, statFor_cons, if_neg hst2]

/-- Fold invariant of the `sessions.forEach` aggregation: running the loop
over `l` combines the accumulator's entry for a name with that name's
count/sum over `l`. -/
theorem statFor_foldl_bump (l : List RepSession) (acc : List SportStat)
    (nm : String) :
    statFor (l.foldl (fun a s => bumpStat a s.sportName s.players.length) acc)
        nm =
      mergeOpt (statFor acc nm) (statValue l nm) := by
  induction l generalizing acc with
  | nil =>
    have hv : statValue [] nm = none := by
      simp [statValue, sessionCountFor]
    rw [List.foldl_nil, hv]
    cases statFor acc nm <;> rfl
  | cons x xs ih =>
    rw [List.foldl_cons, ih, statFor_bumpStat]
    by_cases hm : x.sportName = nm
    · rw [if_pos hm]
      rcases hacc : statFor acc nm with _ | st
      · by_cases hc : sessionCountFor xs nm = 0
        · have hp := playerSumFor_of_count_zero xs nm hc
          simp [statValue, hc, mergeOpt, sessionCountFor_cons,
            playerSumFor_cons, hm, hp, hacc]
        · have h2 : ¬ (1 + sessionCountFor xs nm = 0) := by omega
          simp [statValue, hc, h2, mergeOpt, sessionCountFor_cons,
            playerSumFor_cons, hm, hacc]
      · have hname := statFor_name acc nm st hacc
        by_cases hc : sessionCountFor xs nm = 0
        · have hp := playerSumFor_of_count_zero xs nm hc
          simp [statValue, hc, mergeOpt, sessionCountFor_cons,
            playerSumFor_cons, hm, hp, hacc]
        · have h2 : ¬ (1 + sessionCountFor xs nm = 0) := by omega
          simp only [statValue, if_neg hc, if_neg h2, mergeOpt,
            sessionCountFor_cons, playerSumFor_cons, hm, hacc, if_true,
            Option.some.injEq, SportStat.mk.injEq, if_pos]
          refine ⟨by first | trivial | rfl, by omega, by omega⟩
    · rw [if_neg hm]
      have hcnt : sessionCountFor (x :: xs) nm = sessionCountFor xs nm := by
        rw [sessionCountFor_cons, if_neg hm]
        omega
      have hsum : playerSumFor (x :: xs) nm = playerSumFor xs nm := by
        rw [playerSumFor_cons, if_neg hm]
        omega
      simp [statValue, hcnt, hsum]

/-- Inserting keeps exactly the elements: permutation with the cons. -/
theorem insertByCountDesc_perm (x : SportStat) (l : List SportStat) :
    (insertByCountDesc x l).Perm (x :: l) := by
  induction l with
  | nil => exact List.Perm.refl _
  | cons y ys ih =>
    simp only [insertByCountDesc]
    split_ifs with h
    · exact List.Perm.refl _
    · exact (ih.cons y).trans (List.Perm.swap x y ys)

/-- The stable sort is a permutation of its input. -/
theorem sortByCountDesc_perm (l : List SportStat) :
    (sortByCountDesc l).Perm l := by
  induction l with
  | nil => exact List.Perm.refl _
  | cons x xs ih =>
    exact (insertByCountDesc_perm x (sortByCountDesc xs)).trans (ih.cons x)

/-- Membership in an insertion. -/
theorem mem_insertByCountDesc {z x : SportStat} {l : List SportStat} :
    z ∈ insertByCountDesc x l ↔ z = x ∨ z ∈ l := by
  induction l with
  | nil => simp [insertByCountDesc]
  | cons y ys ih =>
    simp only [insertByCountDesc]
    split_ifs with h
    · simp
    · simp only [List.mem_cons, ih]
      tauto

/-- Inserting into a descending-by-count list keeps it descending. -/
theorem insertByCountDesc_sorted (x : SportStat) (l : List SportStat)
    (h : List.Pairwise (fun a b => b.sessionCount ≤ a.sessionCount) l) :
    List.Pairwise (fun a b => b.sessionCount ≤ a.sessionCount)
      (insertByCountDesc x l) := by
  induction l with
  | nil => simp [insertByCountDesc]
  | cons y ys ih =>
    simp only [insertByCountDesc]
    split_ifs with hle
    · refine List.Pairwise.cons ?_ h
      intro z hz
      rcases List.mem_cons.mp hz with rfl | hz2
      · exact hle
      · exact le_trans ((List.pairwise_cons.mp h).1 z hz2) hle
    · refine List.Pairwise.cons ?_ (ih (List.pairwise_cons.mp h).2)
      intro z hz
      rcases mem_insertByCountDesc.mp hz with rfl | hz2
      · exact Nat.le_of_not_le hle
      · exact (List.pairwise_cons.mp h).1 z hz2

/-- The sort output is descending by session count. -/
theorem sortByCountDesc_sorted (l : List SportStat) :
    List.Pairwise (fun a b => b.sessionCount ≤ a.sessionCount)
      (sortByCountDesc l) := by
  induction l with
  | nil => simp [sortByCountDesc]
  | cons x xs ih => exact insertByCountDesc_sorted x _ ih

/-- On each session-count class, insertion is stable: the skipped prefix
has strictly larger counts, so the class's members keep their order. -/
theorem filter_insertByCountDesc (x : SportStat) (l : List SportStat)
    (c : Nat) :
    (insertByCountDesc x l).filter (fun st => decide (st.sessionCount = c)) =
      if x.sessionCount = c then
        x :: l.filter (fun st => decide (st.sessionCount = c))
      else l.filter (fun st => decide (st.sessionCount = c)) := by
  induction l with
  | nil =>
    simp only [insertByCountDesc, List.filter]
    split_ifs with h <;> simp_all
  | cons y ys ih =>
    simp only [insertByCountDesc]
    by_cases hle : y.sessionCount ≤ x.sessionCount
    · rw [if_pos hle]
      by_cases hx : x.sessionCount = c <;>
        simp [List.filter_cons, hx]
    · rw [if_neg hle]
      have hgt : x.sessionCount < y.sessionCount := Nat.lt_of_not_le hle
      rw [List.filter_cons, ih]
      by_cases hx : x.sessionCount = c
      · have hy : ¬ y.sessionCount = c := by omega
        simp [hx, hy, List.filter_cons]
      · by_cases hy : y.sessionCount = c <;>
          simp [hx, hy, List.filter_cons]

/-- Stability of the sort: each session-count class appears in input
order. -/
theorem filter_sortByCountDesc (l : List SportStat) (c : Nat) :
    (sortByCountDesc l).filter (fun st => decide (st.sessionCount = c)) =
      l.filter (fun st => decide (st.sessionCount = c)) := by
  induction l with
  | nil => rfl
  | cons x xs ih =>
    simp only [sortByCountDesc]
    rw [filter_insertByCountDesc]
    by_cases hx : x.sessionCount = c <;> simp [hx, List.filter_cons, ih]

/-- C8 counterexample: sport "A" has two sessions in range, both joined by
player 7 only; the aggregation reports `totalPlayers = 2` (it sums
`session.players.length` per session), while the distinct-player count of
the claim is 1. -/
theorem popularity_distinct_cex :
    sportPopularity repCexSessions 0 10 =
      [{ name := "A", sessionCount := 2, totalPlayers := 2 }] ∧
    distinctPlayersSpec repCexSessions 0 10 "A" = 1 := by
  constructor
  · rfl
  · rfl

/-- C8 amended: over the sessions whose date falls in the range, the
report aggregates per sport name the session count and the SUM of the
sessions' roster sizes (a player joining several sessions of a sport is
counted once per session), and sorts by session count descending, stably:
the output is a permutation of the aggregated entries, is descending by
session count, and each session-count class keeps its first-appearance
order. -/
theorem popularity_amended :
    ∀ (sessions : List RepSession) (a b : Nat) (nm : String) (c : Nat),
      statFor (sportStatsOf (inRange sessions a b)) nm =
        statValue (inRange sessions a b) nm ∧
      (sportPopularity sessions a b).Perm
        (sportStatsOf (inRange sessions a b)) ∧
      List.Pairwise (fun x y => y.sessionCount ≤ x.sessionCount)
        (sportPopularity sessions a b) ∧
      (sportPopularity sessions a b).filter
          (fun st => decide (st.sessionCount = c)) =
        (sportStatsOf (inRange sessions a b)).filter
          (fun st => decide (st.sessionCount = c)) := by
  intro sessions a b nm c
  refine ⟨?_, sortByCountDesc_perm _, sortByCountDesc_sorted _,
    filter_sortByCountDesc _ _⟩
  have h := statFor_foldl_bump (inRange sessions a b) [] nm
  have h0 : statFor ([] : List SportStat) nm = none := rfl
  rw [h0] at h
  have h1 : mergeOpt none (statValue (inRange sessions a b) nm) =
      statValue (inRange sessions a b) nm := rfl
  rw [h1] at h
  exact h

/-- C8 witness: the aggregation equality at the two-session instance. -/
theorem popularity_amended_w :
    statFor (sportStatsOf (inRange repCexSessions 0 10)) "A" =
      statValue (inRange repCexSessions 0 10) "A" :=
  (popularity_amended repCexSessions 0 10 "A" 2).1
